import Mathlib

/-!
Shallow embedding of `src/server.js` (repository ganesh-rodge/contact-me).

The source file holds two variants of the same Express application:
- the simple variant (first part of the file): CORS gate, JSON body parsing,
  a presence check on the three fields, and a plain-text mail dispatch;
- the validated variant (second part): a sanitize middleware, CORS gate,
  a fixed-window rate limiter, express-validator field checks, and an HTML
  mail dispatch.

Request handlers are embedded as pure functions. The external mail transport
(nodemailer `transporter.sendMail`) is passed in as a function
`MailOptions → TransportResult`; each invocation of that function in a run
is recorded in the `dispatches` list of the result, so dispatch counts are
observable. Calls to `console.log` / `console.error` inside the handlers are
recorded in the `logs` list. The rate limiter state is threaded explicitly.
Third-party validator behaviour (validator.js `isEmail`, `normalizeEmail`)
is kept abstract as function parameters; concrete probe functions are used
for witnesses.
-/

namespace ContactMe

/-- Outcome of one `transporter.sendMail` call: nodemailer either resolves
with an info object (message id and server response) or rejects with an
error, embedded here as its message string. -/
inductive TransportResult where
  | success (messageId : String) (response : String)
  | failure (err : String)
deriving DecidableEq, Repr

/-- The parsed JSON request body `{name, email, message}`; a field absent
from the JSON is `none` (JS `undefined`). -/
structure Submission where
  name : Option String
  email : Option String
  message : Option String
deriving DecidableEq, Repr

/-- The environment variables the server reads: `EMAIL_USER`, `EMAIL_PASS`,
`EMAIL_TO` (the `CORS` variable is handled separately by the allow-list
loaders below). -/
structure Env where
  emailUser : String
  emailPass : String
  emailTo : String
deriving DecidableEq, Repr

/-- The `mailOptions` object handed to `transporter.sendMail`. `fromAddr`
and `toAddr` embed the JS fields `from` and `to` (Lean keywords); `body`
embeds the `text` field in the simple variant and the `html` field in the
validated variant. -/
structure MailOptions where
  fromAddr : String
  replyTo : String
  toAddr : String
  subject : String
  body : String
deriving DecidableEq, Repr

/-- One entry of the array returned by express-validator `errors.array()`:
the offending field (`path`) and the message set by `withMessage`. -/
structure FieldError where
  path : String
  msg : String
deriving DecidableEq, Repr

/-- The JSON (or plain-text) body of an HTTP response as the two variants
produce it. -/
inductive RespBody where
  | json (message : String)
  | jsonWithError (message : String) (error : String)
  | jsonErrors (errors : List FieldError)
  | text (s : String)
deriving DecidableEq, Repr

/-- An HTTP response: status code and body. -/
structure Response where
  status : Nat
  body : RespBody
deriving DecidableEq, Repr

/-- Result of running a route handler on one request: the response sent,
the list of `transporter.sendMail` invocations made (in order, with their
arguments), and the console log lines emitted. -/
structure HandlerResult where
  resp : Response
  dispatches : List MailOptions
  logs : List String
deriving DecidableEq, Repr

/-- Whitespace trim, modelling JS String.prototype.trim and the
express-validator trim() sanitizer: drop whitespace characters from both
ends of the string. Implemented over the character list so that it
evaluates by reduction. -/
def jsTrim (s : String) : String :=
  String.mk (((s.data.dropWhile Char.isWhitespace).reverse.dropWhile
    Char.isWhitespace).reverse)

/-- JS String.prototype.split with separator `","`, as in
`process.env.CORS.split(",")`: splitting the empty string gives `[""]`.
Implemented over the character list so that it evaluates by reduction. -/
def splitCommaAux : List Char → List Char → List String
  | [], acc => [String.mk acc.reverse]
  | c :: cs, acc =>
      if c = ',' then String.mk acc.reverse :: splitCommaAux cs []
      else splitCommaAux cs (c :: acc)

/-- JS `s.split(",")` over a whole string. -/
def splitComma (s : String) : List String :=
  splitCommaAux s.data []

/-- JS falsiness of an optional string field, as tested by
`if (!name || !email || !message)` in the simple variant: `undefined` and
the empty string are falsy, every other string is truthy. -/
def isFalsy : Option String → Bool
  | none => true
  | some s => s == ""

/-- The string value express-validator works on for an optional field: a
missing (`undefined`) field is coerced to the empty string. -/
def fieldValue : Option String → String
  | none => ""
  | some s => s

/-- The plain-text mail body of the simple variant:
`Name: ...\nEmail: ...\nMessage: ...`. -/
def simpleText (n e m : String) : String :=
  "Name: " ++ n ++ "\nEmail: " ++ e ++ "\nMessage: " ++ m

/-- The `mailOptions` of the simple variant (server.js lines 58-64):
`from` is the bare operator address `process.env.EMAIL_USER`, `replyTo` is
the submitted email, `to` is `process.env.EMAIL_TO`, and the subject embeds
the submitted name. -/
def simpleMailOptions (env : Env) (n e m : String) : MailOptions :=
  { fromAddr := env.emailUser
    replyTo := e
    toAddr := env.emailTo
    subject := "New Contact Form Submission from " ++ n
    body := simpleText n e m }

/-- The POST /connect handler of the simple variant (server.js lines 50-77):
reject with 400 `{message: "All fields are required"}` when any field is JS
falsy; otherwise build `mailOptions`, call `transporter.sendMail` once, and
answer 200 on success or 500 `{message: "Error sending message", error}` on
failure, logging the outcome. -/
def simpleConnect (env : Env) (transport : MailOptions → TransportResult)
    (sub : Submission) : HandlerResult :=
  if isFalsy sub.name || isFalsy sub.email || isFalsy sub.message then
    { resp := { status := 400, body := RespBody.json "All fields are required" }
      dispatches := []
      logs := ["⚠️ Validation failed: Missing fields"] }
  else
    let n := fieldValue sub.name
    let e := fieldValue sub.email
    let m := fieldValue sub.message
    let mo := simpleMailOptions env n e m
    match transport mo with
    | TransportResult.success mid resp =>
        { resp := { status := 200, body := RespBody.json "Message sent successfully!" }
          dispatches := [mo]
          logs := ["✅ Email sent successfully!", "Message ID: " ++ mid,
                   "Response: " ++ resp] }
    | TransportResult.failure err =>
        { resp := { status := 500, body := RespBody.jsonWithError "Error sending message" err }
          dispatches := [mo]
          logs := ["❌ Error sending email: " ++ err] }

/-- Result of the express-validator chain of the validated variant
(server.js lines 155-157): the sanitized field values written back into
`req.body` (name and message trimmed, email normalized) and the collected
validation errors in declaration order (name, email, message). -/
structure Checked where
  name : String
  email : String
  message : String
  errors : List FieldError
deriving DecidableEq, Repr

/-- The express-validator chain of the validated variant:
`check("name").trim().notEmpty()`, `check("email").isEmail().normalizeEmail()`,
`check("message").trim().notEmpty()`. The third-party validator.js functions
`isEmail` and `normalizeEmail` are parameters. -/
def runChecks (isEmail : String → Bool) (normEmail : String → String)
    (sub : Submission) : Checked :=
  let n := jsTrim (fieldValue sub.name)
  let e := fieldValue sub.email
  let m := jsTrim (fieldValue sub.message)
  { name := n
    email := normEmail e
    message := m
    errors :=
      (if n = "" then [{ path := "name", msg := "Name is required." }] else [])
        ++ (if isEmail e then []
            else [{ path := "email", msg := "A valid email is required." }])
        ++ (if m = "" then [{ path := "message", msg := "Message is required." }] else []) }

/-- The HTML mail body template of the validated variant (server.js lines
173-177), with the exact whitespace of the template literal. -/
def validatedHtml (n e m : String) : String :=
  "\n        <p><strong>Name:</strong> " ++ n
    ++ "</p>\n        <p><strong>Email:</strong> " ++ e
    ++ "</p>\n        <p><strong>Message:</strong> " ++ m
    ++ "</p>\n      "

/-- The `mailOptions` of the validated variant (server.js lines 168-178):
`from` is the operator address display-named after the submitter,
`replyTo` is the submitted email, `to` is `process.env.EMAIL_TO`, the
subject embeds the submitted name, and the body is the HTML template. -/
def validatedMailOptions (env : Env) (n e m : String) : MailOptions :=
  { fromAddr := "\"" ++ n ++ "\" <" ++ env.emailUser ++ ">"
    replyTo := e
    toAddr := env.emailTo
    subject := "New Contact Form Submission from " ++ n
    body := validatedHtml n e m }

/-- The POST /connect handler body of the validated variant (server.js lines
159-189): answer 400 `{errors: [...]}` when `validationResult(req)` is
non-empty; otherwise build `mailOptions` from the sanitized fields, call
`transporter.sendMail` once, and answer 200 on success or a generic 500 on
failure, logging the outcome. -/
def validatedConnect (env : Env) (transport : MailOptions → TransportResult)
    (isEmail : String → Bool) (normEmail : String → String)
    (sub : Submission) : HandlerResult :=
  let c := runChecks isEmail normEmail sub
  if c.errors.isEmpty then
    let mo := validatedMailOptions env c.name c.email c.message
    match transport mo with
    | TransportResult.success mid _ =>
        { resp := { status := 200, body := RespBody.json "Message sent successfully!" }
          dispatches := [mo]
          logs := ["✅ Email sent successfully! Message ID: " ++ mid] }
    | TransportResult.failure err =>
        { resp := { status := 500,
                    body := RespBody.json "Internal server error. Please try again later." }
          dispatches := [mo]
          logs := ["❌ Error sending email: " ++ err] }
  else
    { resp := { status := 400, body := RespBody.jsonErrors c.errors }
      dispatches := []
      logs := [] }

/-- The allow-list of the simple variant: `process.env.CORS.split(",")`. -/
def allowedOriginsSimple (corsEnv : String) : List String :=
  splitComma corsEnv

/-- The allow-list of the validated variant:
`process.env.CORS.split(",").map(o => o.trim())`. -/
def allowedOriginsValidated (corsEnv : String) : List String :=
  (splitComma corsEnv).map jsTrim

/-- The cors origin callback shared by both variants (server.js lines 14-20
and 107-113): allow when the origin is JS falsy (header absent, passed as
`undefined`) or contained in the allow-list; otherwise the callback errors. -/
def corsAllows (allowed : List String) (origin : Option String) : Bool :=
  isFalsy origin || allowed.contains (fieldValue origin)

/-- The response produced when the cors callback errors with
`new Error("Not allowed by CORS")`: the Express error handler answers the
request with status 500 and the error text, before any route logic runs. -/
def corsRejection : Response :=
  { status := 500, body := RespBody.text "Not allowed by CORS" }

/-- A request object while the middleware chain runs: `body` is `none`
until a body-parsing middleware has run (JS `req.body === undefined`). -/
structure MutableReq where
  body : Option Submission
deriving DecidableEq, Repr

/-- Modelled from the npm package express-sanitize-middleware, configured in
server.js lines 99-103 with `sanitize.body = ["name", "email", "message"]`:
at its turn in the chain it applies the sanitizer function to each listed
field of `req.body`; when the body has not been parsed yet (`req.body`
undefined) there is nothing to sanitize and the request passes through
unchanged. The sanitizer function itself is the parameter `sf`. -/
def sanitizeBodyMiddleware (sf : String → String) (req : MutableReq) : MutableReq :=
  match req.body with
  | none => req
  | some b => { body := some { name := b.name.map sf
                               email := b.email.map sf
                               message := b.message.map sf } }

/-- The body the validated variant route handler sees, following the app
middleware registration order of server.js: `app.use(sanitize(...))` at line
99 runs first, while the body is still unparsed; `express.json()` at line
125 then installs the parsed submission `raw` into `req.body`. -/
def incomingBody (sf : String → String) (raw : Submission) : Submission :=
  let r0 : MutableReq := { body := none }
  let r1 := sanitizeBodyMiddleware sf r0
  let r2 : MutableReq := { r1 with body := some raw }
  r2.body.getD { name := none, email := none, message := none }

/-- The express-rate-limit state for one client identity (one IP): the hit
count and the start of the current fixed window, in milliseconds. -/
structure LimiterState where
  hits : Nat
  windowStart : Nat
deriving DecidableEq, Repr

/-- The configured window: `windowMs: 15 * 60 * 1000` (server.js line 120). -/
def windowMs : Nat := 15 * 60 * 1000

/-- The configured cap: `max: 10` (server.js line 121). -/
def maxHits : Nat := 10

/-- The configured throttle message (server.js line 122). -/
def throttleMessage : String :=
  "Too many requests, please try again after 15 minutes."

/-- One step of the `apiLimiter` fixed-window counter for one client
identity: a first request opens a window at its own arrival time; a request
arriving after the window elapsed resets it; the hit count is incremented
and the request is allowed while the count stays within `maxHits`. -/
def rateLimitStep (st : Option LimiterState) (now : Nat) : LimiterState × Bool :=
  let cur : LimiterState :=
    match st with
    | none => { hits := 0, windowStart := now }
    | some s =>
        if s.windowStart + windowMs ≤ now then { hits := 0, windowStart := now }
        else s
  let next : LimiterState := { cur with hits := cur.hits + 1 }
  (next, decide (next.hits ≤ maxHits))

/-- One incoming POST /connect request: the Origin header (absent for
non-browser clients), the arrival time in milliseconds, and the JSON body
that `express.json()` will parse. -/
structure Request where
  origin : Option String
  time : Nat
  body : Submission
deriving DecidableEq, Repr

/-- Result of the full validated-variant pipeline on one request: the
limiter state of the requesting identity afterwards, and the handler
result pieces. -/
structure StepResult where
  st : Option LimiterState
  resp : Response
  dispatches : List MailOptions
  logs : List String
deriving DecidableEq, Repr

/-- The validated-variant route pipeline after the CORS gate, in the order
of server.js lines 150-189: `apiLimiter` first, then the validator chain and
the handler. A throttled request is answered 429 with the plain-text
throttle message and never reaches the validators or the handler. -/
def postGateValidated (sf : String → String) (env : Env)
    (transport : MailOptions → TransportResult)
    (isEmail : String → Bool) (normEmail : String → String)
    (st : Option LimiterState) (req : Request) : StepResult :=
  let step := rateLimitStep st req.time
  if step.2 then
    let h := validatedConnect env transport isEmail normEmail (incomingBody sf req.body)
    { st := some step.1, resp := h.resp, dispatches := h.dispatches, logs := h.logs }
  else
    { st := some step.1
      resp := { status := 429, body := RespBody.text throttleMessage }
      dispatches := []
      logs := [] }

/-- The full validated-variant pipeline on one request: the CORS gate runs
as app middleware before the route, so a rejected origin is answered before
the limiter, the validators or the handler run, and consumes no limiter
quota. -/
def processValidated (sf : String → String) (env : Env)
    (transport : MailOptions → TransportResult)
    (isEmail : String → Bool) (normEmail : String → String)
    (allowed : List String) (st : Option LimiterState) (req : Request) : StepResult :=
  if corsAllows allowed req.origin then
    postGateValidated sf env transport isEmail normEmail st req
  else
    { st := st, resp := corsRejection, dispatches := [], logs := [] }

/-- The full simple-variant pipeline on one request: the CORS gate, then
body parsing, then the handler (the simple variant has no limiter and no
sanitize middleware). -/
def processSimple (env : Env) (transport : MailOptions → TransportResult)
    (allowed : List String) (req : Request) : HandlerResult :=
  if corsAllows allowed req.origin then
    simpleConnect env transport req.body
  else
    { resp := corsRejection, dispatches := [], logs := [] }

/-- Sequential processing of a list of requests from one client identity
through the validated pipeline, threading the limiter state of that identity;
returns the final state and, per request, the response and the sendMail
invocations made for it. -/
def processValidatedSeq (sf : String → String) (env : Env)
    (transport : MailOptions → TransportResult)
    (isEmail : String → Bool) (normEmail : String → String)
    (allowed : List String) :
    Option LimiterState → List Request →
      Option LimiterState × List (Response × List MailOptions)
  | st, [] => (st, [])
  | st, r :: rs =>
      let out := processValidated sf env transport isEmail normEmail allowed st r
      let next := processValidatedSeq sf env transport isEmail normEmail allowed out.st rs
      (next.1, (out.resp, out.dispatches) :: next.2)

/-- The per-request results of a request sequence from one identity through
the validated pipeline, started from a fresh limiter (no prior request from
that identity). -/
def validatedResults (sf : String → String) (env : Env)
    (transport : MailOptions → TransportResult)
    (isEmail : String → Bool) (normEmail : String → String)
    (allowed : List String) (reqs : List Request) :
    List (Response × List MailOptions) :=
  (processValidatedSeq sf env transport isEmail normEmail allowed none reqs).2

/-- A concrete environment used by witnesses and counterexamples. -/
def testEnv : Env :=
  { emailUser := "owner@gmail.com"
    emailPass := "app-secret"
    emailTo := "inbox@example.com" }

/-- A concrete stand-in instantiating the abstract validator.js `isEmail`
parameter in witnesses: requires an `@` in a nonempty string. It agrees
with validator.js on the concrete strings the witnesses use. -/
def emailProbe (s : String) : Bool :=
  s.data.contains '@' && !(s.data.isEmpty)

/-- Character-level angle-bracket escaping, used by `htmlEscapeProbe`. -/
def escapeChars : List Char → List Char
  | [] => []
  | c :: cs =>
      if c = '<' then '&' :: 'l' :: 't' :: ';' :: escapeChars cs
      else if c = '>' then '&' :: 'g' :: 't' :: ';' :: escapeChars cs
      else c :: escapeChars cs

/-- A concrete HTML-escaping function used to instantiate the sanitizer
parameter: it rewrites angle brackets to entities, so a field it actually
ran on could not carry raw HTML tags. -/
def htmlEscapeProbe (s : String) : String :=
  String.mk (escapeChars s.data)

/-- A concrete valid submission used by witnesses. -/
def subAlice : Submission :=
  { name := some "Alice", email := some "alice@example.com", message := some "Hello" }

/-- A concrete valid request (no Origin header, arrival time 0). -/
def reqAlice : Request :=
  { origin := none, time := 0, body := subAlice }

/-- A concrete request whose body fails validation (name missing). -/
def reqNoName : Request :=
  { origin := none, time := 0
    body := { name := none, email := some "alice@example.com", message := some "Hello" } }

/-- Eleven rapid requests from the same identity within one window. -/
def reqsEleven : List Request := List.replicate 11 reqAlice

theorem incomingBody_eq (sf : String → String) (raw : Submission) :
    incomingBody sf raw = raw := rfl

theorem validatedConnect_invalid (env : Env) (transport : MailOptions → TransportResult)
    (isEmail : String → Bool) (normEmail : String → String) (sub : Submission)
    (h : (runChecks isEmail normEmail sub).errors ≠ []) :
    validatedConnect env transport isEmail normEmail sub =
      { resp := { status := 400,
                  body := RespBody.jsonErrors (runChecks isEmail normEmail sub).errors }
        dispatches := []
        logs := [] } := by
  simp only [validatedConnect]
  rw [if_neg (by simp [List.isEmpty_iff, h])]

theorem validatedConnect_dispatches (env : Env) (transport : MailOptions → TransportResult)
    (isEmail : String → Bool) (normEmail : String → String) (sub : Submission)
    (h : (runChecks isEmail normEmail sub).errors = []) :
    (validatedConnect env transport isEmail normEmail sub).dispatches =
      [validatedMailOptions env (runChecks isEmail normEmail sub).name
        (runChecks isEmail normEmail sub).email (runChecks isEmail normEmail sub).message] := by
  simp only [validatedConnect]
  rw [if_pos (by simp [List.isEmpty_iff, h])]
  cases htr : transport (validatedMailOptions env (runChecks isEmail normEmail sub).name
      (runChecks isEmail normEmail sub).email (runChecks isEmail normEmail sub).message) <;>
    simp [htr]

theorem simpleConnect_reject (env : Env) (transport : MailOptions → TransportResult)
    (sub : Submission)
    (h : (isFalsy sub.name || isFalsy sub.email || isFalsy sub.message) = true) :
    simpleConnect env transport sub =
      { resp := { status := 400, body := RespBody.json "All fields are required" }
        dispatches := []
        logs := ["⚠️ Validation failed: Missing fields"] } := by
  simp only [simpleConnect]
  rw [if_pos (by simp [h])]

theorem simpleConnect_dispatches (env : Env) (transport : MailOptions → TransportResult)
    (sub : Submission)
    (h : (isFalsy sub.name || isFalsy sub.email || isFalsy sub.message) = false) :
    (simpleConnect env transport sub).dispatches =
      [simpleMailOptions env (fieldValue sub.name) (fieldValue sub.email)
        (fieldValue sub.message)] := by
  simp only [simpleConnect]
  rw [if_neg (by simp [h])]
  cases htr : transport (simpleMailOptions env (fieldValue sub.name) (fieldValue sub.email)
      (fieldValue sub.message)) <;> simp [htr]

theorem rateLimitStep_none (now : Nat) :
    rateLimitStep none now = ({ hits := 1, windowStart := now }, true) := rfl

theorem rateLimitStep_inWindow (c t1 now : Nat) (h : now < t1 + windowMs) :
    rateLimitStep (some { hits := c, windowStart := t1 }) now =
      ({ hits := c + 1, windowStart := t1 }, decide (c + 1 ≤ maxHits)) := by
  simp only [rateLimitStep]
  split
  next hle => exact absurd hle (by omega)
  next => rfl

theorem processValidated_inWindow (sf : String → String) (env : Env)
    (transport : MailOptions → TransportResult)
    (isEmail : String → Bool) (normEmail : String → String)
    (allowed : List String) (c t1 : Nat) (r : Request)
    (hc : corsAllows allowed r.origin = true) (ht : r.time < t1 + windowMs) :
    processValidated sf env transport isEmail normEmail allowed
        (some { hits := c, windowStart := t1 }) r =
      if c + 1 ≤ maxHits then
        { st := some { hits := c + 1, windowStart := t1 }
          resp := (validatedConnect env transport isEmail normEmail (incomingBody sf r.body)).resp
          dispatches := (validatedConnect env transport isEmail normEmail
            (incomingBody sf r.body)).dispatches
          logs := (validatedConnect env transport isEmail normEmail
            (incomingBody sf r.body)).logs }
      else
        { st := some { hits := c + 1, windowStart := t1 }
          resp := { status := 429, body := RespBody.text throttleMessage }
          dispatches := []
          logs := [] } := by
  simp only [processValidated, postGateValidated, hc, if_true]
  rw [rateLimitStep_inWindow c t1 r.time ht]
  by_cases hok : c + 1 ≤ maxHits
  · simp [hok]
  · simp [hok]

theorem processValidated_first (sf : String → String) (env : Env)
    (transport : MailOptions → TransportResult)
    (isEmail : String → Bool) (normEmail : String → String)
    (allowed : List String) (r : Request)
    (hc : corsAllows allowed r.origin = true) :
    processValidated sf env transport isEmail normEmail allowed none r =
      { st := some { hits := 1, windowStart := r.time }
        resp := (validatedConnect env transport isEmail normEmail (incomingBody sf r.body)).resp
        dispatches := (validatedConnect env transport isEmail normEmail
          (incomingBody sf r.body)).dispatches
        logs := (validatedConnect env transport isEmail normEmail
          (incomingBody sf r.body)).logs } := by
  simp only [processValidated, postGateValidated, hc, if_true]
  rw [rateLimitStep_none r.time]
  simp

theorem processValidatedSeq_window (sf : String → String) (env : Env)
    (transport : MailOptions → TransportResult)
    (isEmail : String → Bool) (normEmail : String → String)
    (allowed : List String) (t1 : Nat) (reqs : List Request) :
    ∀ (c k : Nat) (r : Request),
      (∀ x ∈ reqs, corsAllows allowed x.origin = true) →
      (∀ x ∈ reqs, x.time < t1 + windowMs) →
      reqs[k]? = some r →
      (processValidatedSeq sf env transport isEmail normEmail allowed
          (some { hits := c, windowStart := t1 }) reqs).2[k]? =
        some (if c + k + 1 ≤ maxHits
          then ((validatedConnect env transport isEmail normEmail (incomingBody sf r.body)).resp,
                (validatedConnect env transport isEmail normEmail (incomingBody sf r.body)).dispatches)
          else ({ status := 429, body := RespBody.text throttleMessage }, [])) := by
  induction reqs with
  | nil => intro c k r _ _ hk; simp at hk
  | cons q rs ih =>
    intro c k r hcors hwin hk
    have hq : corsAllows allowed q.origin = true := hcors q (List.mem_cons_self q rs)
    have hqt : q.time < t1 + windowMs := hwin q (List.mem_cons_self q rs)
    have hstep := processValidated_inWindow sf env transport isEmail normEmail allowed
      c t1 q hq hqt
    simp only [processValidatedSeq, hstep]
    by_cases hok : c + 1 ≤ maxHits
    · rw [if_pos hok]
      cases k with
      | zero =>
        simp only [List.getElem?_cons_zero] at hk ⊢
        cases hk
        rw [if_pos (by omega)]
      | succ k2 =>
        simp only [List.getElem?_cons_succ] at hk ⊢
        have := ih (c + 1) k2 r (fun x hx => hcors x (List.mem_cons_of_mem q hx))
          (fun x hx => hwin x (List.mem_cons_of_mem q hx)) hk
        rw [this]
        have harith : c + 1 + k2 + 1 = c + (k2 + 1) + 1 := by omega
        rw [harith]
    · rw [if_neg hok]
      cases k with
      | zero =>
        simp only [List.getElem?_cons_zero] at hk ⊢
        cases hk
        rw [if_neg (by omega)]
      | succ k2 =>
        simp only [List.getElem?_cons_succ] at hk ⊢
        have := ih (c + 1) k2 r (fun x hx => hcors x (List.mem_cons_of_mem q hx))
          (fun x hx => hwin x (List.mem_cons_of_mem q hx)) hk
        rw [this]
        have harith : c + 1 + k2 + 1 = c + (k2 + 1) + 1 := by omega
        rw [harith]

/-- Claim C2: for every client identity issuing more than 10 POST requests to
/connect within one 15-minute fixed window, every request beyond the 10th in
that window is rejected with the 429 throttle response and transporter.sendMail
is never invoked for it (its dispatch list is empty); requests up to the 10th
proceed to the validation-and-dispatch handler. The request sequence is the
requests of that identity, all CORS-allowed, all arriving within windowMs of the
window opened by the first request. -/
theorem claim_C2 (sf : String → String) (env : Env)
    (transport : MailOptions → TransportResult)
    (isEmail : String → Bool) (normEmail : String → String)
    (allowed : List String) (t0 : Nat) (reqs : List Request)
    (hwin : ∀ x ∈ reqs, t0 ≤ x.time ∧ x.time < t0 + windowMs)
    (hcors : ∀ x ∈ reqs, corsAllows allowed x.origin = true)
    (k : Nat) (r : Request) (hk : reqs[k]? = some r) :
    (10 ≤ k →
      (validatedResults sf env transport isEmail normEmail allowed reqs)[k]? =
        some ({ status := 429, body := RespBody.text throttleMessage }, [])) ∧
    (k < 10 →
      (validatedResults sf env transport isEmail normEmail allowed reqs)[k]? =
        some ((validatedConnect env transport isEmail normEmail (incomingBody sf r.body)).resp,
          (validatedConnect env transport isEmail normEmail (incomingBody sf r.body)).dispatches)) := by
  have hm : maxHits = 10 := rfl
  cases reqs with
  | nil => simp at hk
  | cons q rs =>
    have hq : corsAllows allowed q.origin = true := hcors q (List.mem_cons_self q rs)
    have hfirst := processValidated_first sf env transport isEmail normEmail allowed q hq
    unfold validatedResults
    simp only [processValidatedSeq, hfirst]
    cases k with
    | zero =>
      simp only [List.getElem?_cons_zero] at hk ⊢
      cases hk
      constructor
      · intro h10; omega
      · intro _; rfl
    | succ k2 =>
      simp only [List.getElem?_cons_succ] at hk ⊢
      have hq0 : t0 ≤ q.time := (hwin q (List.mem_cons_self q rs)).1
      have hseq := processValidatedSeq_window sf env transport isEmail normEmail allowed
        q.time rs 1 k2 r (fun x hx => hcors x (List.mem_cons_of_mem q hx))
        (fun x hx => by have := (hwin x (List.mem_cons_of_mem q hx)).2; omega) hk
      rw [hseq]
      constructor
      · intro h10
        rw [if_neg (by omega)]
      · intro hlt
        rw [if_pos (by omega)]

/-- Witness for claim C2: eleven rapid in-window requests from one identity;
the eleventh (index 10) is answered 429 with the throttle message and no
sendMail invocation. -/
theorem claim_C2_witness :
    (validatedResults id testEnv (fun _ => TransportResult.success "id1" "ok")
        emailProbe id [] reqsEleven)[10]? =
      some ({ status := 429, body := RespBody.text throttleMessage }, []) :=
  (claim_C2 id testEnv (fun _ => TransportResult.success "id1" "ok") emailProbe id [] 0
    reqsEleven (by decide) (by decide) 10 reqAlice (by decide)).1 (by decide)

theorem corsAllows_iff (allowed : List String) (origin : Option String)
    (hne : origin ≠ some "") :
    corsAllows allowed origin = true ↔
      origin = none ∨ ∃ s, origin = some s ∧ s ∈ allowed := by
  cases origin with
  | none => simp [corsAllows, isFalsy, fieldValue]
  | some s =>
    have hs : s ≠ "" := fun h => hne (by rw [h])
    simp [corsAllows, isFalsy, fieldValue, hs]

/-- Claim C5: the Origin Gate allows a request exactly when the declared
origin is absent or a member of the allow-list loaded from the CORS
configuration string; a rejected origin makes the whole request fail with
the CORS rejection before any route logic runs: the limiter state is
untouched, no sendMail happens and nothing is logged, in both variants.
The hypothesis excludes the degenerate empty Origin header, which the code
treats like an absent one (JS falsiness). -/
theorem claim_C5 (corsEnv : String) (origin : Option String) (hne : origin ≠ some "") :
    (corsAllows (allowedOriginsValidated corsEnv) origin = true ↔
      origin = none ∨ ∃ s, origin = some s ∧ s ∈ allowedOriginsValidated corsEnv) ∧
    (corsAllows (allowedOriginsSimple corsEnv) origin = true ↔
      origin = none ∨ ∃ s, origin = some s ∧ s ∈ allowedOriginsSimple corsEnv) ∧
    (∀ (sf : String → String) (env : Env) (transport : MailOptions → TransportResult)
      (isEmail : String → Bool) (normEmail : String → String)
      (st : Option LimiterState) (r : Request), r.origin = origin →
        (corsAllows (allowedOriginsValidated corsEnv) origin = false →
          processValidated sf env transport isEmail normEmail
              (allowedOriginsValidated corsEnv) st r =
            { st := st, resp := corsRejection, dispatches := [], logs := [] }) ∧
        (corsAllows (allowedOriginsValidated corsEnv) origin = true →
          processValidated sf env transport isEmail normEmail
              (allowedOriginsValidated corsEnv) st r =
            postGateValidated sf env transport isEmail normEmail st r)) ∧
    (∀ (env : Env) (transport : MailOptions → TransportResult) (r : Request),
      r.origin = origin →
      corsAllows (allowedOriginsSimple corsEnv) origin = false →
      processSimple env transport (allowedOriginsSimple corsEnv) r =
        { resp := corsRejection, dispatches := [], logs := [] }) := by
  refine ⟨corsAllows_iff _ _ hne, corsAllows_iff _ _ hne, ?_, ?_⟩
  · intro sf env transport isEmail normEmail st r hr
    constructor
    · intro hfalse
      simp [processValidated, hr, hfalse]
    · intro htrue
      simp [processValidated, hr, htrue]
  · intro env transport r hr hfalse
    simp [processSimple, hr, hfalse]

/-- Witness for claim C5: with allow-list loaded from
"http://a.com, http://b.com", a request declaring origin http://evil.com is
answered with the CORS rejection, with no limiter update, no dispatch and no
log. -/
theorem claim_C5_witness :
    processValidated id testEnv (fun _ => TransportResult.success "id1" "ok") emailProbe id
        (allowedOriginsValidated "http://a.com, http://b.com") none
        { origin := some "http://evil.com", time := 0, body := subAlice } =
      { st := none, resp := corsRejection, dispatches := [], logs := [] } :=
  ((claim_C5 "http://a.com, http://b.com" (some "http://evil.com") (by decide)).2.2.1
    id testEnv (fun _ => TransportResult.success "id1" "ok") emailProbe id none
    { origin := some "http://evil.com", time := 0, body := subAlice } rfl).1 (by decide)

/-- Claim C1, amended: when the transport rejects on a valid submission, the
validated variant answers 500 with the fixed generic message (independent of
the exception) and logs the exception server-side; the simple variant also
answers 500 and logs the exception, but its JSON body carries the caught
error value alongside the message "Error sending message". -/
theorem claim_C1 (env : Env) (isEmail : String → Bool) (normEmail : String → String)
    (sub : Submission) (err : String)
    (hvalid : (runChecks isEmail normEmail sub).errors = []) :
    (validatedConnect env (fun _ => TransportResult.failure err) isEmail normEmail sub).resp =
      { status := 500,
        body := RespBody.json "Internal server error. Please try again later." } ∧
    (validatedConnect env (fun _ => TransportResult.failure err) isEmail normEmail sub).logs =
      ["❌ Error sending email: " ++ err] ∧
    ((isFalsy sub.name || isFalsy sub.email || isFalsy sub.message) = false →
      (simpleConnect env (fun _ => TransportResult.failure err) sub).resp =
        { status := 500, body := RespBody.jsonWithError "Error sending message" err } ∧
      (simpleConnect env (fun _ => TransportResult.failure err) sub).logs =
        ["❌ Error sending email: " ++ err]) := by
  refine ⟨?_, ?_, fun hp => ⟨?_, ?_⟩⟩
  · simp only [validatedConnect]
    rw [if_pos (by simp [List.isEmpty_iff, hvalid])]
  · simp only [validatedConnect]
    rw [if_pos (by simp [List.isEmpty_iff, hvalid])]
  · simp only [simpleConnect]
    rw [if_neg (by simp [hp])]
  · simp only [simpleConnect]
    rw [if_neg (by simp [hp])]

/-- Witness for claim C1: a valid submission with a failing transport gets
the fixed generic 500 body from the validated variant. -/
theorem claim_C1_witness :
    (validatedConnect testEnv (fun _ => TransportResult.failure "boom") emailProbe id
        subAlice).resp =
      { status := 500,
        body := RespBody.json "Internal server error. Please try again later." } :=
  (claim_C1 testEnv emailProbe id subAlice "boom" (by decide)).1

/-- Counterexample to claim C1 as stated: in the simple variant the 500 body
embeds the caught transport error verbatim next to the generic message, so
internal detail of the failure is included in the response sent to the
caller, and the response varies with that internal detail. -/
theorem claim_C1_counterexample :
    (simpleConnect testEnv (fun _ => TransportResult.failure "Invalid login 535")
        subAlice).resp =
      { status := 500,
        body := RespBody.jsonWithError "Error sending message" "Invalid login 535" } ∧
    (simpleConnect testEnv (fun _ => TransportResult.failure "connection timeout")
        subAlice).resp ≠
      (simpleConnect testEnv (fun _ => TransportResult.failure "Invalid login 535")
        subAlice).resp := by
  exact ⟨by decide, by decide⟩

/-- Claim C3, amended: in the validated variant a submission whose name or
message is missing or empty after trimming, or whose email fails the email
check, is answered 400 carrying the per-field error list and is never
dispatched; in the simple variant only a missing or exactly-empty field
triggers the 400, whose body is the single generic message
"All fields are required" with no per-field detail, and no dispatch occurs
for it. -/
theorem claim_C3 (env : Env) (transport : MailOptions → TransportResult)
    (isEmail : String → Bool) (normEmail : String → String) (sub : Submission)
    (hbad : jsTrim (fieldValue sub.name) = "" ∨ isEmail (fieldValue sub.email) = false ∨
      jsTrim (fieldValue sub.message) = "") :
    (runChecks isEmail normEmail sub).errors ≠ [] ∧
    (validatedConnect env transport isEmail normEmail sub).resp =
      { status := 400,
        body := RespBody.jsonErrors (runChecks isEmail normEmail sub).errors } ∧
    (validatedConnect env transport isEmail normEmail sub).dispatches = [] ∧
    (jsTrim (fieldValue sub.name) = "" →
      { path := "name", msg := "Name is required." } ∈
        (runChecks isEmail normEmail sub).errors) ∧
    (isEmail (fieldValue sub.email) = false →
      { path := "email", msg := "A valid email is required." } ∈
        (runChecks isEmail normEmail sub).errors) ∧
    (jsTrim (fieldValue sub.message) = "" →
      { path := "message", msg := "Message is required." } ∈
        (runChecks isEmail normEmail sub).errors) ∧
    ((isFalsy sub.name || isFalsy sub.email || isFalsy sub.message) = true →
      simpleConnect env transport sub =
        { resp := { status := 400, body := RespBody.json "All fields are required" }
          dispatches := []
          logs := ["⚠️ Validation failed: Missing fields"] }) := by
  have hmem1 : jsTrim (fieldValue sub.name) = "" →
      { path := "name", msg := "Name is required." } ∈
        (runChecks isEmail normEmail sub).errors := by
    intro h; simp [runChecks, h]
  have hmem2 : isEmail (fieldValue sub.email) = false →
      { path := "email", msg := "A valid email is required." } ∈
        (runChecks isEmail normEmail sub).errors := by
    intro h; simp [runChecks, h]
  have hmem3 : jsTrim (fieldValue sub.message) = "" →
      { path := "message", msg := "Message is required." } ∈
        (runChecks isEmail normEmail sub).errors := by
    intro h; simp [runChecks, h]
  have hne : (runChecks isEmail normEmail sub).errors ≠ [] := by
    rcases hbad with h | h | h
    · exact List.ne_nil_of_mem (hmem1 h)
    · exact List.ne_nil_of_mem (hmem2 h)
    · exact List.ne_nil_of_mem (hmem3 h)
  have hinv := validatedConnect_invalid env transport isEmail normEmail sub hne
  exact ⟨hne, by rw [hinv], by rw [hinv], hmem1, hmem2, hmem3,
    fun hp => simpleConnect_reject env transport sub hp⟩

/-- Witness for claim C3: a whitespace-only name is rejected by the
validated variant with the structured error list and no dispatch. -/
theorem claim_C3_witness :
    (validatedConnect testEnv (fun _ => TransportResult.success "id1" "ok") emailProbe id
        { name := some " ", email := some "alice@example.com", message := some "Hello" }).resp =
      { status := 400,
        body := RespBody.jsonErrors (runChecks emailProbe id
          { name := some " ", email := some "alice@example.com",
            message := some "Hello" }).errors } :=
  (claim_C3 testEnv (fun _ => TransportResult.success "id1" "ok") emailProbe id
    { name := some " ", email := some "alice@example.com", message := some "Hello" }
    (Or.inl (by decide))).2.1

/-- Counterexample to claim C3 as stated: in the simple variant a
whitespace-only name (empty after trimming) passes the falsiness check, so
the submission is dispatched and answered 200 instead of a 400 with
per-field detail. -/
theorem claim_C3_counterexample :
    (simpleConnect testEnv (fun _ => TransportResult.success "id1" "ok")
        { name := some " ", email := some "alice@example.com",
          message := some "Hello" }).resp.status = 200 ∧
    (simpleConnect testEnv (fun _ => TransportResult.success "id1" "ok")
        { name := some " ", email := some "alice@example.com",
          message := some "Hello" }).dispatches.length = 1 := by
  exact ⟨by decide, by decide⟩

/-- Claim C4, amended: in the validated variant a submission whose email
fails the email check is answered 400 and never dispatched; the simple
variant checks only presence, so any submission with all three fields
non-empty is dispatched regardless of email syntax. -/
theorem claim_C4 (env : Env) (transport : MailOptions → TransportResult)
    (isEmail : String → Bool) (normEmail : String → String) (sub : Submission)
    (hbad : isEmail (fieldValue sub.email) = false) :
    (validatedConnect env transport isEmail normEmail sub).resp.status = 400 ∧
    (validatedConnect env transport isEmail normEmail sub).dispatches = [] ∧
    ((isFalsy sub.name || isFalsy sub.email || isFalsy sub.message) = false →
      (simpleConnect env transport sub).dispatches.length = 1) := by
  have hmem : { path := "email", msg := "A valid email is required." } ∈
      (runChecks isEmail normEmail sub).errors := by
    simp [runChecks, hbad]
  have hinv := validatedConnect_invalid env transport isEmail normEmail sub
    (List.ne_nil_of_mem hmem)
  refine ⟨by rw [hinv], by rw [hinv], fun hp => ?_⟩
  rw [simpleConnect_dispatches env transport sub hp]
  rfl

/-- Witness for claim C4: a syntactically invalid email is answered 400 by
the validated variant. -/
theorem claim_C4_witness :
    (validatedConnect testEnv (fun _ => TransportResult.success "id1" "ok") emailProbe id
        { name := some "Bob", email := some "not-an-email",
          message := some "yo" }).resp.status = 400 :=
  (claim_C4 testEnv (fun _ => TransportResult.success "id1" "ok") emailProbe id
    { name := some "Bob", email := some "not-an-email", message := some "yo" }
    (by decide)).1

/-- Counterexample to claim C4 as stated: the simple variant dispatches a
submission whose email is not a syntactically valid address and answers 200,
with the invalid string used as the replyTo of the outbound message. -/
theorem claim_C4_counterexample :
    (simpleConnect testEnv (fun _ => TransportResult.success "id1" "ok")
        { name := some "Bob", email := some "not-an-email",
          message := some "yo" }).resp.status = 200 ∧
    (simpleConnect testEnv (fun _ => TransportResult.success "id1" "ok")
        { name := some "Bob", email := some "not-an-email",
          message := some "yo" }).dispatches =
      [simpleMailOptions testEnv "Bob" "not-an-email" "yo"] := by
  exact ⟨by decide, by decide⟩

/-- Claim C6, amended: in both variants the outbound message has replyTo
equal to the submitted email, to equal to the configured recipient
EMAIL_TO, and the deterministic subject "New Contact Form Submission from "
followed by the submitted name; from is the operator address EMAIL_USER,
display-named after the submitter in the validated variant but bare (no
display name) in the simple variant. For a valid submission each handler
dispatches exactly its mailOptions built from the (sanitized) fields. -/
theorem claim_C6 (env : Env) (transport : MailOptions → TransportResult)
    (isEmail : String → Bool) (normEmail : String → String)
    (sub : Submission) (n e m : String) :
    (validatedMailOptions env n e m).fromAddr =
      "\"" ++ n ++ "\" <" ++ env.emailUser ++ ">" ∧
    (validatedMailOptions env n e m).replyTo = e ∧
    (validatedMailOptions env n e m).toAddr = env.emailTo ∧
    (validatedMailOptions env n e m).subject = "New Contact Form Submission from " ++ n ∧
    (simpleMailOptions env n e m).fromAddr = env.emailUser ∧
    (simpleMailOptions env n e m).replyTo = e ∧
    (simpleMailOptions env n e m).toAddr = env.emailTo ∧
    (simpleMailOptions env n e m).subject = "New Contact Form Submission from " ++ n ∧
    ((runChecks isEmail normEmail sub).errors = [] →
      (validatedConnect env transport isEmail normEmail sub).dispatches =
        [validatedMailOptions env (runChecks isEmail normEmail sub).name
          (runChecks isEmail normEmail sub).email
          (runChecks isEmail normEmail sub).message]) ∧
    ((isFalsy sub.name || isFalsy sub.email || isFalsy sub.message) = false →
      (simpleConnect env transport sub).dispatches =
        [simpleMailOptions env (fieldValue sub.name) (fieldValue sub.email)
          (fieldValue sub.message)]) :=
  ⟨rfl, rfl, rfl, rfl, rfl, rfl, rfl, rfl,
   fun h => validatedConnect_dispatches env transport isEmail normEmail sub h,
   fun h => simpleConnect_dispatches env transport sub h⟩

/-- Witness for claim C6: the validated variant dispatches the message built
from the sanitized fields of a concrete valid submission. -/
theorem claim_C6_witness :
    (validatedConnect testEnv (fun _ => TransportResult.success "id1" "ok") emailProbe id
        subAlice).dispatches =
      [validatedMailOptions testEnv (runChecks emailProbe id subAlice).name
        (runChecks emailProbe id subAlice).email
        (runChecks emailProbe id subAlice).message] :=
  (claim_C6 testEnv (fun _ => TransportResult.success "id1" "ok") emailProbe id subAlice
    "Alice" "alice@example.com" "Hello").2.2.2.2.2.2.2.2.1 (by decide)

/-- Counterexample to claim C6 as stated: for the valid submission from
Alice the simple variant dispatches a message whose from is the bare
operator address, not the operator address display-named after the
submitter. -/
theorem claim_C6_counterexample :
    (simpleConnect testEnv (fun _ => TransportResult.success "id1" "ok")
        subAlice).dispatches =
      [simpleMailOptions testEnv "Alice" "alice@example.com" "Hello"] ∧
    (simpleMailOptions testEnv "Alice" "alice@example.com" "Hello").fromAddr =
      "owner@gmail.com" ∧
    (simpleMailOptions testEnv "Alice" "alice@example.com" "Hello").fromAddr ≠
      "\"Alice\" <owner@gmail.com>" := by
  exact ⟨by decide, by decide, by decide⟩

/-- Claim C7 (code bug): the validated variant registers the sanitize
middleware before express.json, so it runs while req.body is still unparsed
and has no effect on the submission the handler reads, for every sanitizer
function; consequently a name carrying raw HTML reaches the outbound
message body unescaped, as the evaluation at the failing input
name = "<b>x</b>" shows, even though the configured escaper would have
neutralized it had it run on the parsed body. -/
theorem claim_C7_bug :
    (∀ (sf : String → String) (raw : Submission), incomingBody sf raw = raw) ∧
    (validatedConnect testEnv (fun _ => TransportResult.success "id1" "ok") emailProbe id
        (incomingBody htmlEscapeProbe
          { name := some "<b>x</b>", email := some "a@b.co", message := some "hi" })).dispatches =
      [validatedMailOptions testEnv "<b>x</b>" "a@b.co" "hi"] ∧
    (validatedMailOptions testEnv "<b>x</b>" "a@b.co" "hi").body =
      "\n        <p><strong>Name:</strong> <b>x</b></p>\n        <p><strong>Email:</strong> a@b.co</p>\n        <p><strong>Message:</strong> hi</p>\n      " ∧
    htmlEscapeProbe "<b>x</b>" = "&lt;b&gt;x&lt;/b&gt;" :=
  ⟨fun _ _ => rfl, by decide, by decide, by decide⟩

/-- Claim C8: a valid submission whose dispatch succeeds is answered 200
with body message "Message sent successfully!", in both variants. -/
theorem claim_C8 (env : Env) (isEmail : String → Bool) (normEmail : String → String)
    (sub : Submission) (mid rs : String) :
    ((runChecks isEmail normEmail sub).errors = [] →
      (validatedConnect env (fun _ => TransportResult.success mid rs) isEmail normEmail
          sub).resp =
        { status := 200, body := RespBody.json "Message sent successfully!" }) ∧
    ((isFalsy sub.name || isFalsy sub.email || isFalsy sub.message) = false →
      (simpleConnect env (fun _ => TransportResult.success mid rs) sub).resp =
        { status := 200, body := RespBody.json "Message sent successfully!" }) := by
  constructor
  · intro hvalid
    simp only [validatedConnect]
    rw [if_pos (by simp [List.isEmpty_iff, hvalid])]
  · intro hp
    simp only [simpleConnect]
    rw [if_neg (by simp [hp])]

/-- Witness for claim C8: the concrete valid submission from Alice with a
succeeding transport is answered 200 in the validated variant. -/
theorem claim_C8_witness :
    (validatedConnect testEnv (fun _ => TransportResult.success "id1" "250 OK") emailProbe id
        subAlice).resp =
      { status := 200, body := RespBody.json "Message sent successfully!" } :=
  (claim_C8 testEnv emailProbe id subAlice "id1" "250 OK").1 (by decide)

/-- Claim C9: every accepted request makes exactly one sendMail invocation,
whatever the transport outcome (no retry, no queuing), in both variants; and
two identical valid submissions sent in sequence each trigger their own
dispatch attempt (no deduplication). -/
theorem claim_C9 (sf : String → String) (env : Env)
    (transport : MailOptions → TransportResult)
    (isEmail : String → Bool) (normEmail : String → String)
    (allowed : List String) (sub sub2 : Submission) (r : Request) :
    ((runChecks isEmail normEmail sub).errors = [] →
      (validatedConnect env transport isEmail normEmail sub).dispatches.length = 1) ∧
    ((isFalsy sub2.name || isFalsy sub2.email || isFalsy sub2.message) = false →
      (simpleConnect env transport sub2).dispatches.length = 1) ∧
    (corsAllows allowed r.origin = true →
      (runChecks isEmail normEmail (incomingBody sf r.body)).errors = [] →
      (validatedResults sf env transport isEmail normEmail allowed [r, r]).map
        (fun p => p.2.length) = [1, 1]) := by
  refine ⟨fun h => ?_, fun h => ?_, fun hc hv => ?_⟩
  · rw [validatedConnect_dispatches env transport isEmail normEmail sub h]; rfl
  · rw [simpleConnect_dispatches env transport sub2 h]; rfl
  · have hfirst := processValidated_first sf env transport isEmail normEmail allowed r hc
    have hwm : r.time < r.time + windowMs := by
      have h9 : windowMs = 900000 := rfl
      omega
    have hm : maxHits = 10 := rfl
    have hsecond := processValidated_inWindow sf env transport isEmail normEmail allowed
      1 r.time r hc hwm
    rw [if_pos (by omega)] at hsecond
    unfold validatedResults
    simp only [processValidatedSeq, hfirst, hsecond]
    rw [validatedConnect_dispatches env transport isEmail normEmail
      (incomingBody sf r.body) hv]
    rfl

/-- Witness for claim C9: two identical valid requests in sequence each make
exactly one dispatch attempt. -/
theorem claim_C9_witness :
    (validatedResults id testEnv (fun _ => TransportResult.success "id1" "ok") emailProbe id
        [] [reqAlice, reqAlice]).map (fun p => p.2.length) = [1, 1] :=
  (claim_C9 id testEnv (fun _ => TransportResult.success "id1" "ok") emailProbe id []
    subAlice subAlice reqAlice).2.2 (by decide) (by decide)

/-- Claim C10: in the validated variant the rate limiter runs before field
validation on POST /connect, so a CORS-allowed in-window request whose body
fails validation is answered 400 yet still increments the hit counter of
its identity by one, consuming one unit of the 10-request window quota. -/
theorem claim_C10 (sf : String → String) (env : Env)
    (transport : MailOptions → TransportResult)
    (isEmail : String → Bool) (normEmail : String → String)
    (allowed : List String) (c t1 : Nat) (r : Request)
    (hc : corsAllows allowed r.origin = true) (ht : r.time < t1 + windowMs)
    (hn : c + 1 ≤ 10)
    (hbad : (runChecks isEmail normEmail (incomingBody sf r.body)).errors ≠ []) :
    (processValidated sf env transport isEmail normEmail allowed
        (some { hits := c, windowStart := t1 }) r).st =
      some { hits := c + 1, windowStart := t1 } ∧
    (processValidated sf env transport isEmail normEmail allowed
        (some { hits := c, windowStart := t1 }) r).resp =
      { status := 400,
        body := RespBody.jsonErrors
          (runChecks isEmail normEmail (incomingBody sf r.body)).errors } ∧
    (processValidated sf env transport isEmail normEmail allowed
        (some { hits := c, windowStart := t1 }) r).dispatches = [] := by
  have hstep := processValidated_inWindow sf env transport isEmail normEmail allowed
    c t1 r hc ht
  rw [if_pos (show c + 1 ≤ maxHits from hn)] at hstep
  have hinv := validatedConnect_invalid env transport isEmail normEmail
    (incomingBody sf r.body) hbad
  exact ⟨by rw [hstep], by rw [hstep, hinv], by rw [hstep, hinv]⟩

/-- Witness for claim C10: a request with a missing name is answered 400 and
still increments the counter of its identity from 0 to 1. -/
theorem claim_C10_witness :
    (processValidated id testEnv (fun _ => TransportResult.success "id1" "ok") emailProbe id
        [] (some { hits := 0, windowStart := 0 }) reqNoName).st =
      some { hits := 1, windowStart := 0 } :=
  (claim_C10 id testEnv (fun _ => TransportResult.success "id1" "ok") emailProbe id [] 0 0
    reqNoName (by decide) (by decide) (by decide) (by decide)).1

end ContactMe
